import Mathlib

/-!
Verification of the session/conversation state model of `src/main.py`
("Junior_Doctor V7 (Vision)", a Streamlit chat application).

The application keeps two pieces of session state (`init_session_state`):
`history`, a list of consultation records, and `current_view`, a pointer to
the record currently shown (or `None` for the intake form). Each user
interaction is one synchronous handler run that may perform at most one
inference call (`get_ai_response`). We embed the state as `SessionState`
(the view pointer becomes an index into `history`, capturing the Python
aliasing of `current_view` into the live `history` entries), the user
interactions as the `Op` type, and the handler as the `step` function,
which also returns the list of inference invocations (model identifier and
message payload) performed during the interaction. The remote inference
endpoint and the base64 image encoder are external collaborators and are
passed in as functions (`Oracle`, `enc`); a `none` reply models a raised
exception, which aborts the rest of the handler.
-/

namespace JuniorDoctor

/-- Message roles, mirroring langchain's `SystemMessage` / `HumanMessage` /
`AIMessage` classes used in `src/main.py`. -/
inductive Role where
  | system
  | user
  | assistant
deriving DecidableEq, Repr

/-- One element of a multimodal content list (`msg_content` in the vision
intake): a text part or an image-URL part. -/
inductive Part where
  | textPart (s : String)
  | imageUrlPart (url : String)
deriving DecidableEq, Repr

/-- A message content payload: plain text, or a list of typed parts
(the multimodal form built for the vision call). -/
inductive Content where
  | text (s : String)
  | parts (l : List Part)
deriving DecidableEq, Repr

/-- A chat turn: a role together with a content payload. -/
structure Message where
  role : Role
  content : Content
deriving DecidableEq, Repr

/-- `SystemMessage(content=s)` from langchain as used in `main.py`. -/
def SystemMessage (s : String) : Message :=
  { role := Role.system, content := Content.text s }

/-- `HumanMessage(content=c)`; the content may be plain text or the
multimodal list of parts. -/
def HumanMessage (c : Content) : Message :=
  { role := Role.user, content := c }

/-- `AIMessage(content=s)`. -/
def AIMessage (s : String) : Message :=
  { role := Role.assistant, content := Content.text s }

/-- The three values of the sidebar radio button
`st.radio("Mode :", ["Diagnostic 🩺", "Traduction 🔀", "Explication 🎓"])`. -/
inductive Mode where
  | diagnostic
  | traduction
  | explication
deriving DecidableEq, Repr

/-- The display string of each mode, exactly as it appears in the radio
list (and hence in every f-string interpolating `mode`). -/
def Mode.label : Mode → String
  | Mode.diagnostic => "Diagnostic 🩺"
  | Mode.traduction => "Traduction 🔀"
  | Mode.explication => "Explication 🎓"

/-- `target_lang` from `render_sidebar`: the selectbox value when the mode
is Traduction, `None` otherwise (lines 47-51). `sel` is the user's
selectbox choice. -/
def targetLangOf (mode : Mode) (sel : String) : Option String :=
  match mode with
  | Mode.traduction => some sel
  | _ => none

/-- `lang_label` from `render_sidebar`: `f"Traduction vers {target_lang}"`
in Traduction mode, the mode string otherwise (lines 47-52). This value is
returned to `main` as `summary_label`. -/
def langLabelOf (mode : Mode) (sel : String) : String :=
  match mode with
  | Mode.traduction => "Traduction vers " ++ sel
  | m => m.label

/-- One consultation record (`new_session` dict in `main.py`): creation
time, summary label, optional pasted code, optional raw image bytes, and
the conversation turns. -/
structure Session where
  time : String
  summary : String
  code_input : Option String
  image_data : Option (List Nat)
  messages : List Message
deriving DecidableEq, Repr

/-- The record with its `messages` list replaced — the in-place mutation
`session["messages"].append(...)` expressed functionally. -/
def Session.withMessages (sess : Session) (m : List Message) : Session :=
  { sess with messages := m }

/-- The Streamlit session state: `st.session_state.history` and
`st.session_state.current_view`. In Python `current_view` aliases a dict
stored in `history` (or the one just appended); we represent it as an
index into `history`. -/
structure SessionState where
  history : List Session
  current_view : Option Nat
deriving DecidableEq, Repr

/-- `init_session_state`: empty history, no active view. -/
def initState : SessionState :=
  { history := [], current_view := none }

/-- The vision back-end chosen by `get_ai_response` when `has_image` is
set: `"llama-3.2-11b-vision-preview"` (line 79). -/
def visionModel : String := "llama-3.2-11b-vision-preview"

/-- The general text back-end: `"llama-3.3-70b-versatile"` (line 81). -/
def textModel : String := "llama-3.3-70b-versatile"

/-- The model-selection branch of `get_ai_response` (lines 78-81). -/
def selectModel (has_image : Bool) : String :=
  if has_image then visionModel else textModel

/-- The remote inference collaborator: given a model identifier and the
message sequence, returns the reply text, or `none` when the call raises
(network / auth / quota error). -/
abbrev Oracle := String → List Message → Option String

/-- `get_ai_response(messages, api_key, has_image)`: selects the back-end
from `has_image` and invokes the endpoint once (lines 74-85). -/
def get_ai_response (oracle : Oracle) (messages : List Message)
    (has_image : Bool) : Option String :=
  oracle (selectModel has_image) messages

/-- One inference invocation as observed at the collaborator boundary:
which model was requested and with which message payload. -/
structure InferenceCall where
  model : String
  payload : List Message
deriving DecidableEq, Repr

/-- `sys_msg = f"Tu es expert. Mode: {mode}. Analyse ce code."`
(line 153). -/
def sysMsgFor (mode : Mode) : String :=
  "Tu es expert. Mode: " ++ mode.label ++ ". Analyse ce code."

/-- The fixed seed user turn of a text consultation:
`f"Voici le code : \n```\n{code_input}\n```"` (line 156). -/
def seedUserText (code_input : String) : String :=
  "Voici le code : \n```\n" ++ code_input ++ "\n```"

/-- `initial_msgs` of the text intake (lines 154-157): the system prompt
followed by the seed user turn. -/
def textSeed (mode : Mode) (code_input : String) : List Message :=
  [SystemMessage (sysMsgFor mode),
   HumanMessage (Content.text (seedUserText code_input))]

/-- `prompt_text` of the vision intake (lines 185-191): the triple-quoted
f-string, including the conditional translation sentence. -/
def visionPrompt (mode : Mode) (target_lang : Option String) : String :=
  "\n                        Regarde cette image attentivement. Elle contient du code informatique.\n                        TA MISSION :\n                        1. Extrais le code présent sur l'image.\n                        2. Exécute la requête suivante : " ++
    mode.label ++ ".\n                        " ++
    (match target_lang with
     | some t => "Si Traduction, traduis vers " ++ t ++ "."
     | none => "") ++
    "\n                        "

/-- The placeholder user turn stored instead of the heavy multimodal
payload: `HumanMessage(content="[Photo du code envoyée]")` (line 209). -/
def photoPlaceholder : String := "[Photo du code envoyée]"

/-- `initial_msgs` of the vision intake (lines 194-202): a single
multimodal user turn with a text part and an inline image-URL part
carrying the base64 encoding of the captured bytes. -/
def imageSeed (enc : List Nat → String) (mode : Mode) (sel : String)
    (bytes : List Nat) : List Message :=
  [HumanMessage (Content.parts
    [Part.textPart (visionPrompt mode (targetLangOf mode sel)),
     Part.imageUrlPart ("data:image/jpeg;base64," ++ enc bytes)])]

/-- The user interactions of one Streamlit rerun:
`newConsult` is the "➕ Nouvelle Consultation" button (line 55);
`clearAll` the "🗑️ Tout effacer" button (line 59);
`setActive i` a click on the i-th history button, where `i` indexes
`history` directly (the sidebar displays `reversed(history)`, a display
concern only);
`textIntake` the "Lancer l'analyse (Texte)" button with the text-area
content (`pressed` is whether the button was clicked);
`imageIntake` the "Lancer l'analyse (Vision)" button with the optional
camera capture;
`chat` the chat input of an open consultation.
`mode` and `sel` are the sidebar radio and selectbox values, `time` the
formatted creation timestamp. -/
inductive Op where
  | newConsult
  | clearAll
  | setActive (i : Nat)
  | textIntake (mode : Mode) (sel : String) (time : String)
      (pressed : Bool) (code_input : String)
  | imageIntake (mode : Mode) (sel : String) (time : String)
      (img : Option (List Nat)) (pressed : Bool)
  | chat (user_input : String)
deriving DecidableEq, Repr

/-- Whether the interaction is the chat input of an open consultation. -/
def Op.isChat : Op → Bool
  | Op.chat _ => true
  | _ => false

/-- One synchronous interaction handler run of `main` (plus the sidebar
buttons of `render_sidebar`). Returns the new session state together with
the inference invocations performed. A `none` oracle reply models a raised
exception: the rest of the handler does not run, so any mutation already
performed persists (for the chat handler, the user turn appended on
line 130 before the call) and anything later (record construction and
append, lines 162-171 and 207-220) never happens. -/
def step (oracle : Oracle) (enc : List Nat → String) (s : SessionState)
    (op : Op) : SessionState × List InferenceCall :=
  match op with
  | Op.newConsult =>
      -- lines 55-57: current_view := None
      ({ s with current_view := none }, [])
  | Op.clearAll =>
      -- lines 59-62: history := [], current_view := None
      ({ history := [], current_view := none }, [])
  | Op.setActive i =>
      -- lines 65-69: buttons exist only for sessions present in history
      if i < s.history.length then ({ s with current_view := some i }, [])
      else (s, [])
  | Op.chat user_input =>
      -- lines 129-141; the walrus `if user_input := st.chat_input(...)`
      -- is falsy on the empty string
      if user_input = "" then (s, []) else
      match s.current_view with
      | none => (s, [])
      | some i =>
        match s.history.get? i with
        | none => (s, [])
        | some session =>
          let msgs1 := session.messages ++ [HumanMessage (Content.text user_input)]
          let has_img := session.image_data.isSome
          let call : InferenceCall := { model := selectModel has_img, payload := msgs1 }
          match get_ai_response oracle msgs1 has_img with
          | none =>
              -- the user turn was already appended in place (line 130)
              let session1 : Session := { session with messages := msgs1 }
              ({ s with history := s.history.set i session1 }, [call])
          | some ai_reply =>
              let session2 : Session :=
                { session with messages := msgs1 ++ [AIMessage ai_reply] }
              ({ s with history := s.history.set i session2 }, [call])
  | Op.textIntake mode sel time pressed code_input =>
      -- lines 150-172; no emptiness check on code_input in the source
      if pressed then
        let initial_msgs := textSeed mode code_input
        let call : InferenceCall := { model := selectModel false, payload := initial_msgs }
        match get_ai_response oracle initial_msgs false with
        | none => (s, [call])
        | some resp =>
          let new_session : Session :=
            { time := time
              summary := langLabelOf mode sel ++ " (Txt)"
              code_input := some code_input
              image_data := none
              messages := initial_msgs ++ [AIMessage resp] }
          ({ history := s.history ++ [new_session],
             current_view := some s.history.length }, [call])
      else (s, [])
  | Op.imageIntake mode sel time img pressed =>
      -- lines 176-221; the analyse button is only rendered when
      -- `img_file is not None`
      match img with
      | none => (s, [])
      | some bytes =>
        if pressed then
          let initial_msgs := imageSeed enc mode sel bytes
          let call : InferenceCall := { model := selectModel true, payload := initial_msgs }
          match get_ai_response oracle initial_msgs true with
          | none => (s, [call])
          | some resp =>
            let clean_msgs := [HumanMessage (Content.text photoPlaceholder),
                               AIMessage resp]
            let new_session : Session :=
              { time := time
                summary := langLabelOf mode sel ++ " (Cam)"
                code_input := none
                image_data := some bytes
                messages := clean_msgs }
            ({ history := s.history ++ [new_session],
               current_view := some s.history.length }, [call])
        else (s, [])

/-- `pat.isPrefixOf`-style check: does the first list begin with the
second? Used to state (non-)containment of fixed substrings. -/
def beginsWith [DecidableEq α] : List α → List α → Bool
  | _, [] => true
  | [], _ :: _ => false
  | a :: as, b :: bs => decide (a = b) && beginsWith as bs

/-- Does `pat` occur as a contiguous sublist of the second argument? -/
def subListOf [DecidableEq α] (pat : List α) : List α → Bool
  | [] => beginsWith ([] : List α) pat
  | a :: as => beginsWith (a :: as) pat || subListOf pat as

/-- Substring test on strings, used to state the summary/prompt
containment properties. -/
def strContains (s pat : String) : Bool :=
  subListOf pat.data s.data

/-- Is a message's content the multimodal list-of-parts form? -/
def isMultimodal (m : Message) : Bool :=
  match m.content with
  | Content.parts _ => true
  | Content.text _ => false

/-- Does the message sequence contain a `system` turn? -/
def hasSystemTurn (msgs : List Message) : Bool :=
  msgs.any (fun m => match m.role with
    | Role.system => true
    | _ => false)

/-- A submission (or an open record) "originated from an image": for the
two intake interactions this is the intake kind; for a chat interaction it
is whether the active record carries image bytes, which is exactly the
`has_img` test of line 137. -/
def imageOrigin (s : SessionState) (op : Op) : Bool :=
  match op with
  | Op.imageIntake _ _ _ _ _ => true
  | Op.chat _ =>
      (match s.current_view with
       | some i =>
           (match s.history.get? i with
            | some sess => sess.image_data.isSome
            | none => false)
       | none => false)
  | _ => false

/-- A constantly-succeeding inference collaborator, for concrete runs. -/
def okOracle : Oracle := fun _ _ => some "OK"

/-- A constantly-failing inference collaborator (every call raises). -/
def failOracle : Oracle := fun _ _ => none

/-- A stub base64 encoder for concrete runs (the encoder is an external
collaborator; no property here depends on its output). -/
def encStub : List Nat → String := fun _ => "QUJD"

/-- A concrete text-origin session used by concrete instantiations. -/
def sessText : Session :=
  { time := "10:00"
    summary := "Diagnostic 🩺 (Txt)"
    code_input := some "x=1"
    image_data := none
    messages := textSeed Mode.diagnostic "x=1" ++ [AIMessage "R0"] }

/-- A concrete image-origin session used by concrete instantiations. -/
def sessImg : Session :=
  { time := "11:00"
    summary := "Diagnostic 🩺 (Cam)"
    code_input := none
    image_data := some [1, 2, 3]
    messages := [HumanMessage (Content.text photoPlaceholder), AIMessage "R0"] }

/-- A concrete state with one text-origin record, active. -/
def stText : SessionState := { history := [sessText], current_view := some 0 }

/-- A concrete state with one image-origin record, active. -/
def stImg : SessionState := { history := [sessImg], current_view := some 0 }

/-- A concrete image intake interaction, for concrete instantiations. -/
def sampleImageOp : Op :=
  Op.imageIntake Mode.diagnostic "Python" "12:00" (some [1, 2, 3]) true

/-- The inference invocation performed by `sampleImageOp`. -/
def sampleImageCall : InferenceCall :=
  { model := selectModel true,
    payload := imageSeed encStub Mode.diagnostic "Python" [1, 2, 3] }

/-- The inference invocation performed by a chat turn "B" on `stImg`. -/
def sampleChatCall : InferenceCall :=
  { model := selectModel true,
    payload := sessImg.messages ++ [HumanMessage (Content.text "B")] }

/-! ### Helper lemmas -/

theorem getq_append_left {α : Type} (l l' : List α) (i : Nat)
    (h : i < l.length) : (l ++ l').get? i = l.get? i := by
  induction l generalizing i with
  | nil => exact absurd h (Nat.not_lt_zero i)
  | cons a as ih =>
    cases i with
    | zero => rfl
    | succ n => exact ih n (Nat.lt_of_succ_lt_succ h)

theorem getq_set_self {α : Type} (l : List α) (i : Nat) (a : α)
    (h : i < l.length) : (l.set i a).get? i = some a := by
  induction l generalizing i with
  | nil => exact absurd h (Nat.not_lt_zero i)
  | cons b bs ih =>
    cases i with
    | zero => rfl
    | succ n => exact ih n (Nat.lt_of_succ_lt_succ h)

theorem lt_of_getq_some {α : Type} (l : List α) (i : Nat) (a : α)
    (h : l.get? i = some a) : i < l.length := by
  induction l generalizing i with
  | nil => exact Option.noConfusion h
  | cons b bs ih =>
    cases i with
    | zero => exact Nat.succ_pos _
    | succ n => exact Nat.succ_lt_succ (ih n h)

/-- Unfolding lemma: a successful text intake (button pressed, oracle
replies) appends the new record and makes it active, after exactly one
call to the text back-end with the seed messages. -/
theorem step_textIntake_ok (oracle : Oracle) (enc : List Nat → String)
    (s : SessionState) (mode : Mode) (sel time code r : String)
    (h : oracle (selectModel false) (textSeed mode code) = some r) :
    step oracle enc s (Op.textIntake mode sel time true code) =
      ({ history := s.history ++
           [{ time := time, summary := langLabelOf mode sel ++ " (Txt)",
              code_input := some code, image_data := none,
              messages := textSeed mode code ++ [AIMessage r] }],
         current_view := some s.history.length },
       [{ model := selectModel false, payload := textSeed mode code }]) := by
  simp [step, get_ai_response, h]

/-- Unfolding lemma: a text intake whose single call raises leaves the
state untouched. -/
theorem step_textIntake_fail (oracle : Oracle) (enc : List Nat → String)
    (s : SessionState) (mode : Mode) (sel time code : String)
    (h : oracle (selectModel false) (textSeed mode code) = none) :
    step oracle enc s (Op.textIntake mode sel time true code) =
      (s, [{ model := selectModel false, payload := textSeed mode code }]) := by
  simp [step, get_ai_response, h]

/-- Unfolding lemma: a successful vision intake appends the cleaned
record (placeholder user turn, raw bytes kept aside) and makes it
active, after exactly one call to the vision back-end with the
multimodal seed. -/
theorem step_imageIntake_ok (oracle : Oracle) (enc : List Nat → String)
    (s : SessionState) (mode : Mode) (sel time : String)
    (bytes : List Nat) (r : String)
    (h : oracle (selectModel true) (imageSeed enc mode sel bytes) = some r) :
    step oracle enc s (Op.imageIntake mode sel time (some bytes) true) =
      ({ history := s.history ++
           [{ time := time, summary := langLabelOf mode sel ++ " (Cam)",
              code_input := none, image_data := some bytes,
              messages := [HumanMessage (Content.text photoPlaceholder),
                           AIMessage r] }],
         current_view := some s.history.length },
       [{ model := selectModel true, payload := imageSeed enc mode sel bytes }]) := by
  simp [step, get_ai_response, h]

/-- Unfolding lemma: a vision intake whose single call raises leaves the
state untouched. -/
theorem step_imageIntake_fail (oracle : Oracle) (enc : List Nat → String)
    (s : SessionState) (mode : Mode) (sel time : String) (bytes : List Nat)
    (h : oracle (selectModel true) (imageSeed enc mode sel bytes) = none) :
    step oracle enc s (Op.imageIntake mode sel time (some bytes) true) =
      (s, [{ model := selectModel true, payload := imageSeed enc mode sel bytes }]) := by
  simp [step, get_ai_response, h]

/-- Unfolding lemma: a successful chat turn on the active record appends
the user turn and the assistant reply in place. -/
theorem step_chat_ok (oracle : Oracle) (enc : List Nat → String)
    (s : SessionState) (i : Nat) (sess : Session) (inp r : String)
    (hinp : inp ≠ "")
    (hv : s.current_view = some i) (hs : s.history.get? i = some sess)
    (h : oracle (selectModel sess.image_data.isSome)
         (sess.messages ++ [HumanMessage (Content.text inp)]) = some r) :
    step oracle enc s (Op.chat inp) =
      ({ s with history := s.history.set i (sess.withMessages (sess.messages ++
           [HumanMessage (Content.text inp), AIMessage r])) },
       [{ model := selectModel sess.image_data.isSome,
          payload := sess.messages ++ [HumanMessage (Content.text inp)] }]) := by
  have hs2 : s.history[i]? = some sess := by
    simpa [List.get?_eq_getElem?] using hs
  simp [step, get_ai_response, hinp, hv, hs2, h, Session.withMessages]

/-! ### Claim theorems -/

/-- C9: `clear()` ("🗑️ Tout effacer") always leaves the Session Store
with an empty record list and the active view set to none, regardless of
the prior state (including an already-empty one). -/
theorem clear_resets_store (oracle : Oracle) (enc : List Nat → String)
    (s : SessionState) :
    (step oracle enc s Op.clearAll).1 =
      { history := [], current_view := none } := rfl

theorem getLastq_append_singleton {α : Type} (l : List α) (a : α) :
    (l ++ [a]).getLast? = some a := by
  rw [List.getLast?_append_cons]
  rfl

/-- Appending message lists distributes over the system-turn test. -/
theorem hasSystemTurn_append (m1 m2 : List Message) :
    hasSystemTurn (m1 ++ m2) = (hasSystemTurn m1 || hasSystemTurn m2) := by
  simp [hasSystemTurn]

/-- Every inference invocation of an interaction uses the back-end chosen
by `selectModel` from whether the submission (or active record)
originated from an image. -/
theorem calls_model (oracle : Oracle) (enc : List Nat → String)
    (s : SessionState) (op : Op) (c : InferenceCall)
    (hc : c ∈ (step oracle enc s op).2) :
    c.model = selectModel (imageOrigin s op) := by
  cases op with
  | newConsult => simp [step] at hc
  | clearAll => simp [step] at hc
  | setActive i =>
      by_cases hlt : i < s.history.length <;> simp [step, hlt] at hc
  | chat inp =>
      by_cases he : inp = ""
      · simp [step, he] at hc
      · cases hv : s.current_view with
        | none => simp [step, he, hv] at hc
        | some i =>
          cases hg : s.history.get? i with
          | none =>
              have hg2 : s.history[i]? = none := by
                simpa [List.get?_eq_getElem?] using hg
              simp [step, he, hv, hg2] at hc
          | some sess =>
              have hg2 : s.history[i]? = some sess := by
                simpa [List.get?_eq_getElem?] using hg
              cases ho : oracle (selectModel sess.image_data.isSome)
                  (sess.messages ++ [HumanMessage (Content.text inp)]) with
              | none =>
                  simp [step, get_ai_response, he, hv, hg2, ho] at hc
                  subst hc
                  simp [imageOrigin, hv, hg2]
              | some r =>
                  simp [step, get_ai_response, he, hv, hg2, ho] at hc
                  subst hc
                  simp [imageOrigin, hv, hg2]
  | textIntake mode sel time pressed code =>
      cases pressed with
      | false => simp [step] at hc
      | true =>
          cases ho : oracle (selectModel false) (textSeed mode code) with
          | none =>
              simp [step, get_ai_response, ho] at hc
              subst hc
              simp [imageOrigin]
          | some r =>
              simp [step, get_ai_response, ho] at hc
              subst hc
              simp [imageOrigin]
  | imageIntake mode sel time img pressed =>
      cases img with
      | none => simp [step] at hc
      | some bytes =>
          cases pressed with
          | false => simp [step] at hc
          | true =>
              cases ho : oracle (selectModel true) (imageSeed enc mode sel bytes) with
              | none =>
                  simp [step, get_ai_response, ho] at hc
                  subst hc
                  simp [imageOrigin]
              | some r =>
                  simp [step, get_ai_response, ho] at hc
                  subst hc
                  simp [imageOrigin]

/-- C1 counterexample: pressing "Lancer l'analyse (Texte)" with an empty
text area (no code text, no image anywhere in the submission) is not a
no-op — with a succeeding endpoint, one inference call is made and a
record is created and appended. -/
theorem empty_text_submit_creates_record :
    (step okOracle encStub initState
       (Op.textIntake Mode.diagnostic "Python" "12:00" true "")).1.history.length = 1 ∧
    (step okOracle encStub initState
       (Op.textIntake Mode.diagnostic "Python" "12:00" true "")).2.length = 1 :=
  ⟨rfl, rfl⟩

/-- C1 (amended): when no image is captured the vision intake is a no-op
(no inference call, no record, state unchanged, no error), for any state
and any button value; but a text intake with the analyse button pressed
proceeds even when the code text is empty — one inference call is made
and, when it succeeds, a record is appended. -/
theorem intake_noop_amended (oracle : Oracle) (enc : List Nat → String)
    (s : SessionState) (mode : Mode) (sel time : String) (pressed : Bool)
    (r : String)
    (h : oracle (selectModel false) (textSeed mode "") = some r) :
    step oracle enc s (Op.imageIntake mode sel time none pressed) = (s, []) ∧
    (step oracle enc s (Op.textIntake mode sel time true "")).1.history.length
      = s.history.length + 1 ∧
    (step oracle enc s (Op.textIntake mode sel time true "")).2.length = 1 := by
  refine ⟨rfl, ?_, ?_⟩ <;>
    rw [step_textIntake_ok oracle enc s mode sel time "" r h] <;> simp

theorem intake_noop_amended_witness :
    step okOracle encStub initState
      (Op.imageIntake Mode.diagnostic "Python" "12:00" none true) = (initState, []) ∧
    (step okOracle encStub initState
      (Op.textIntake Mode.diagnostic "Python" "12:00" true "")).1.history.length
        = initState.history.length + 1 ∧
    (step okOracle encStub initState
      (Op.textIntake Mode.diagnostic "Python" "12:00" true "")).2.length = 1 :=
  intake_noop_amended okOracle encStub initState Mode.diagnostic "Python" "12:00"
    true "OK" rfl

/-- C2 counterexample: the record summary of a Diagnostic-mode text
submission never contains "Debug Python" (there is no debug mode, no
source-language and no level selection in the source); the summary of a
Traduction-mode submission towards "Rust" contains no "Python" at all (so
no "Python ➔ Rust" under any separator); and no message of the one
inference call of that submission contains "Rust" — the system prompt
interpolates only the mode. -/
theorem summary_labels_counterexample :
    ((step okOracle encStub initState
        (Op.textIntake Mode.diagnostic "Python" "12:00" true "x=1")).1.history.map
          (fun sess => strContains sess.summary "Debug Python")) = [false] ∧
    ((step okOracle encStub initState
        (Op.textIntake Mode.traduction "Rust" "12:00" true "x=1")).1.history.map
          (fun sess => strContains sess.summary "Python")) = [false] ∧
    ((step okOracle encStub initState
        (Op.textIntake Mode.traduction "Rust" "12:00" true "x=1")).2.map
          (fun c => c.payload.any (fun m =>
            match m.content with
            | Content.text t => strContains t "Rust"
            | Content.parts _ => true))) = [false] := by
  refine ⟨?_, ?_, ?_⟩ <;> decide

/-- C2 (amended): the source offers no debug mode, no source-language and
no level selection. For a text submission in Diagnostic mode the record
summary is exactly "Diagnostic 🩺 (Txt)"; in Traduction mode towards
"Rust" the summary is exactly "Traduction vers Rust (Txt)" — it contains
the target language verbatim but no source language and no "➔"
separator — and the single inference call is made with the fixed seed
whose system prompt contains the mode label verbatim but not the target
language. -/
theorem summary_and_prompt_amended (oracle : Oracle) (enc : List Nat → String)
    (s : SessionState) (time code r1 r2 : String)
    (h1 : oracle (selectModel false) (textSeed Mode.diagnostic code) = some r1)
    (h2 : oracle (selectModel false) (textSeed Mode.traduction code) = some r2) :
    ((step oracle enc s
        (Op.textIntake Mode.diagnostic "Python" time true code)).1.history.map
          Session.summary
      = s.history.map Session.summary ++ ["Diagnostic 🩺 (Txt)"]) ∧
    ((step oracle enc s
        (Op.textIntake Mode.traduction "Rust" time true code)).1.history.map
          Session.summary
      = s.history.map Session.summary ++ ["Traduction vers Rust (Txt)"]) ∧
    strContains "Traduction vers Rust (Txt)" "Rust" = true ∧
    strContains "Traduction vers Rust (Txt)" "➔" = false ∧
    ((step oracle enc s
        (Op.textIntake Mode.traduction "Rust" time true code)).2.map
          InferenceCall.payload = [textSeed Mode.traduction code]) ∧
    strContains (sysMsgFor Mode.traduction) Mode.traduction.label = true ∧
    strContains (sysMsgFor Mode.traduction) "Rust" = false := by
  refine ⟨?_, ?_, by decide, by decide, ?_, by decide, by decide⟩
  · rw [step_textIntake_ok oracle enc s Mode.diagnostic "Python" time code r1 h1]
    simp [langLabelOf, Mode.label]
  · rw [step_textIntake_ok oracle enc s Mode.traduction "Rust" time code r2 h2]
    simp [langLabelOf]
  · rw [step_textIntake_ok oracle enc s Mode.traduction "Rust" time code r2 h2]
    rfl

theorem summary_and_prompt_amended_witness :
    ((step okOracle encStub initState
        (Op.textIntake Mode.diagnostic "Python" "12:00" true "x=1")).1.history.map
          Session.summary
      = initState.history.map Session.summary ++ ["Diagnostic 🩺 (Txt)"]) ∧
    ((step okOracle encStub initState
        (Op.textIntake Mode.traduction "Rust" "12:00" true "x=1")).1.history.map
          Session.summary
      = initState.history.map Session.summary ++ ["Traduction vers Rust (Txt)"]) ∧
    strContains "Traduction vers Rust (Txt)" "Rust" = true ∧
    strContains "Traduction vers Rust (Txt)" "➔" = false ∧
    ((step okOracle encStub initState
        (Op.textIntake Mode.traduction "Rust" "12:00" true "x=1")).2.map
          InferenceCall.payload = [textSeed Mode.traduction "x=1"]) ∧
    strContains (sysMsgFor Mode.traduction) Mode.traduction.label = true ∧
    strContains (sysMsgFor Mode.traduction) "Rust" = false :=
  summary_and_prompt_amended okOracle encStub initState "12:00" "x=1" "OK" "OK"
    rfl rfl

/-- C3: when the single inference call of a brand-new consultation (text
or image) raises, no record is appended and the Session Store is exactly
its pre-call state; the record is only constructed and stored after a
successful reply. -/
theorem no_record_on_first_call_failure (oracle : Oracle)
    (enc : List Nat → String) (s : SessionState) (mode : Mode)
    (sel time code : String) (bytes : List Nat)
    (htext : oracle (selectModel false) (textSeed mode code) = none)
    (himg : oracle (selectModel true) (imageSeed enc mode sel bytes) = none) :
    (step oracle enc s (Op.textIntake mode sel time true code)).1 = s ∧
    (step oracle enc s (Op.imageIntake mode sel time (some bytes) true)).1 = s := by
  rw [step_textIntake_fail oracle enc s mode sel time code htext,
      step_imageIntake_fail oracle enc s mode sel time bytes himg]
  exact ⟨rfl, rfl⟩

theorem no_record_on_first_call_failure_witness :
    (step failOracle encStub stText
       (Op.textIntake Mode.diagnostic "Python" "12:00" true "x=1")).1 = stText ∧
    (step failOracle encStub stText
       (Op.imageIntake Mode.diagnostic "Python" "12:00" (some [1, 2, 3]) true)).1
      = stText :=
  no_record_on_first_call_failure failOracle encStub stText Mode.diagnostic
    "Python" "12:00" "x=1" [1, 2, 3] rfl rfl

/-- C4: a successful text submission appends a record whose `messages`
is exactly the system turn, then the fixed seed user turn, then one
assistant turn — length three at creation. -/
theorem text_record_message_shape (oracle : Oracle) (enc : List Nat → String)
    (s : SessionState) (mode : Mode) (sel time code r : String)
    (h : oracle (selectModel false) (textSeed mode code) = some r) :
    (step oracle enc s (Op.textIntake mode sel time true code)).1.history =
      s.history ++
        [{ time := time, summary := langLabelOf mode sel ++ " (Txt)",
           code_input := some code, image_data := none,
           messages := [SystemMessage (sysMsgFor mode),
                        HumanMessage (Content.text (seedUserText code)),
                        AIMessage r] }] ∧
    ((step oracle enc s (Op.textIntake mode sel time true code)).1.history.getLast?).map
        (fun sess => sess.messages.map Message.role)
      = some [Role.system, Role.user, Role.assistant] := by
  rw [step_textIntake_ok oracle enc s mode sel time code r h]
  refine ⟨rfl, ?_⟩
  rw [getLastq_append_singleton]
  rfl

theorem text_record_message_shape_witness :
    (step okOracle encStub initState
       (Op.textIntake Mode.diagnostic "Python" "12:00" true "x=1")).1.history =
      initState.history ++
        [{ time := "12:00", summary := langLabelOf Mode.diagnostic "Python" ++ " (Txt)",
           code_input := some "x=1", image_data := none,
           messages := [SystemMessage (sysMsgFor Mode.diagnostic),
                        HumanMessage (Content.text (seedUserText "x=1")),
                        AIMessage "OK"] }] ∧
    ((step okOracle encStub initState
       (Op.textIntake Mode.diagnostic "Python" "12:00" true "x=1")).1.history.getLast?).map
        (fun sess => sess.messages.map Message.role)
      = some [Role.system, Role.user, Role.assistant] :=
  text_record_message_shape okOracle encStub initState Mode.diagnostic "Python"
    "12:00" "x=1" "OK" rfl

/-- C5: a successful image submission stores a record whose `messages`
is exactly the fixed placeholder user turn "[Photo du code envoyée]"
followed by the assistant reply — no multimodal payload with inline image
data is retained — and whose `image_data` field holds the captured bytes
unchanged. -/
theorem image_record_stored_clean (oracle : Oracle) (enc : List Nat → String)
    (s : SessionState) (mode : Mode) (sel time : String) (bytes : List Nat)
    (r : String)
    (h : oracle (selectModel true) (imageSeed enc mode sel bytes) = some r) :
    (step oracle enc s (Op.imageIntake mode sel time (some bytes) true)).1.history =
      s.history ++
        [{ time := time, summary := langLabelOf mode sel ++ " (Cam)",
           code_input := none, image_data := some bytes,
           messages := [HumanMessage (Content.text photoPlaceholder),
                        AIMessage r] }] ∧
    ((step oracle enc s (Op.imageIntake mode sel time (some bytes) true)).1.history.getLast?).map
        (fun sess => sess.messages.any isMultimodal) = some false ∧
    ((step oracle enc s (Op.imageIntake mode sel time (some bytes) true)).1.history.getLast?).map
        Session.image_data = some (some bytes) := by
  rw [step_imageIntake_ok oracle enc s mode sel time bytes r h]
  refine ⟨rfl, ?_, ?_⟩ <;> rw [getLastq_append_singleton] <;> rfl

theorem image_record_stored_clean_witness :
    (step okOracle encStub initState
       (Op.imageIntake Mode.diagnostic "Python" "12:00" (some [7, 8, 9]) true)).1.history =
      initState.history ++
        [{ time := "12:00", summary := langLabelOf Mode.diagnostic "Python" ++ " (Cam)",
           code_input := none, image_data := some [7, 8, 9],
           messages := [HumanMessage (Content.text photoPlaceholder),
                        AIMessage "OK"] }] ∧
    ((step okOracle encStub initState
       (Op.imageIntake Mode.diagnostic "Python" "12:00" (some [7, 8, 9]) true)).1.history.getLast?).map
        (fun sess => sess.messages.any isMultimodal) = some false ∧
    ((step okOracle encStub initState
       (Op.imageIntake Mode.diagnostic "Python" "12:00" (some [7, 8, 9]) true)).1.history.getLast?).map
        Session.image_data = some (some [7, 8, 9]) :=
  image_record_stored_clean okOracle encStub initState Mode.diagnostic "Python"
    "12:00" [7, 8, 9] "OK" rfl

/-- Unfolding lemma: a chat turn whose call raises keeps the already
appended user turn (line 130 runs before the failing call) but stores no
assistant turn. -/
theorem step_chat_fail (oracle : Oracle) (enc : List Nat → String)
    (s : SessionState) (i : Nat) (sess : Session) (inp : String)
    (hinp : inp ≠ "")
    (hv : s.current_view = some i) (hs : s.history.get? i = some sess)
    (h : oracle (selectModel sess.image_data.isSome)
         (sess.messages ++ [HumanMessage (Content.text inp)]) = none) :
    step oracle enc s (Op.chat inp) =
      ({ s with history := s.history.set i (sess.withMessages (sess.messages ++
           [HumanMessage (Content.text inp)])) },
       [{ model := selectModel sess.image_data.isSome,
          payload := sess.messages ++ [HumanMessage (Content.text inp)] }]) := by
  have hs2 : s.history[i]? = some sess := by
    simpa [List.get?_eq_getElem?] using hs
  simp [step, get_ai_response, hinp, hv, hs2, h, Session.withMessages]

theorem getE_set_self {α : Type} (l : List α) (i : Nat) (a : α)
    (h : i < l.length) : (l.set i a)[i]? = some a := by
  rw [← List.get?_eq_getElem?]
  exact getq_set_self l i a h

/-- A single user turn contains no system turn. -/
theorem hasSystemTurn_user (c : Content) :
    hasSystemTurn [HumanMessage c] = false := rfl

/-- A user turn followed by an assistant turn contains no system turn. -/
theorem hasSystemTurn_user_assistant (c : Content) (r : String) :
    hasSystemTurn [HumanMessage c, AIMessage r] = false := rfl

/-- C6: exactly two inference back-ends are distinguished, and the
vision-capable one is selected if and only if the submission (or the
active record, for a chat turn) originated from an image. -/
theorem model_selection_policy (oracle : Oracle) (enc : List Nat → String)
    (s : SessionState) (op : Op) (c : InferenceCall)
    (hc : c ∈ (step oracle enc s op).2) :
    (c.model = visionModel ∨ c.model = textModel) ∧
    (c.model = visionModel ↔ imageOrigin s op = true) := by
  have hm := calls_model oracle enc s op c hc
  rw [hm]
  cases hb : imageOrigin s op
  · exact ⟨Or.inr rfl, by decide⟩
  · exact ⟨Or.inl rfl, by decide⟩

theorem model_selection_policy_witness :
    (sampleImageCall.model = visionModel ∨ sampleImageCall.model = textModel) ∧
    (sampleImageCall.model = visionModel ↔ imageOrigin initState sampleImageOp = true) :=
  model_selection_policy okOracle encStub initState sampleImageOp sampleImageCall
    (List.Mem.head _)

/-- C7: two successive successful chat turns with user texts `a` then `b`
leave the active record's messages ending in user `a`, assistant reply 1,
user `b`, assistant reply 2, in that exact order. -/
theorem chat_ordering_two_turns (oracle : Oracle) (enc : List Nat → String)
    (s : SessionState) (i : Nat) (sess : Session) (a b r1 r2 : String)
    (ha : a ≠ "") (hb : b ≠ "")
    (hv : s.current_view = some i) (hs : s.history.get? i = some sess)
    (h1 : oracle (selectModel sess.image_data.isSome)
          (sess.messages ++ [HumanMessage (Content.text a)]) = some r1)
    (h2 : oracle (selectModel sess.image_data.isSome)
          (sess.messages ++ [HumanMessage (Content.text a), AIMessage r1,
                             HumanMessage (Content.text b)]) = some r2) :
    ((step oracle enc (step oracle enc s (Op.chat a)).1 (Op.chat b)).1.history.get? i)
      = some (sess.withMessages (sess.messages ++
          [HumanMessage (Content.text a), AIMessage r1,
           HumanMessage (Content.text b), AIMessage r2])) := by
  have hlen : i < s.history.length := lt_of_getq_some _ _ _ hs
  rw [step_chat_ok oracle enc s i sess a r1 ha hv hs h1]
  have h2b : oracle (selectModel (sess.withMessages (sess.messages ++
        [HumanMessage (Content.text a), AIMessage r1])).image_data.isSome)
      ((sess.withMessages (sess.messages ++
        [HumanMessage (Content.text a), AIMessage r1])).messages ++
        [HumanMessage (Content.text b)]) = some r2 := by
    simpa [Session.withMessages] using h2
  dsimp only
  rw [step_chat_ok oracle enc
      ({ s with history := s.history.set i (sess.withMessages (sess.messages ++
          [HumanMessage (Content.text a), AIMessage r1])) })
      i (sess.withMessages (sess.messages ++
          [HumanMessage (Content.text a), AIMessage r1])) b r2 hb hv
      (getq_set_self s.history i _ hlen) h2b]
  dsimp only
  rw [List.set_set, getq_set_self _ _ _ hlen]
  simp [Session.withMessages]

theorem chat_ordering_two_turns_witness :
    ((step okOracle encStub (step okOracle encStub stText (Op.chat "A")).1
        (Op.chat "B")).1.history.get? 0)
      = some (sessText.withMessages (sessText.messages ++
          [HumanMessage (Content.text "A"), AIMessage "OK",
           HumanMessage (Content.text "B"), AIMessage "OK"])) :=
  chat_ordering_two_turns okOracle encStub stText 0 sessText "A" "B" "OK" "OK"
    (by decide) (by decide) rfl rfl rfl rfl

/-- C8: switching the active view never mutates any record (the history
list is unchanged entirely), and no interaction other than the chat turn
of `continueConversation` changes any pre-existing record: every index
present before holds the identical record afterwards. -/
theorem only_chat_mutates_messages (oracle : Oracle) (enc : List Nat → String)
    (s : SessionState) (op : Op) (j i : Nat)
    (hop : op.isChat = false)
    (h1 : i < s.history.length)
    (h2 : i < (step oracle enc s op).1.history.length) :
    (step oracle enc s (Op.setActive j)).1.history = s.history ∧
    (step oracle enc s op).1.history.get? i = s.history.get? i := by
  constructor
  · by_cases hj : j < s.history.length <;> simp [step, hj]
  · cases op with
    | newConsult => rfl
    | clearAll => exact absurd h2 (by simp [step])
    | setActive k => by_cases hk : k < s.history.length <;> simp [step, hk]
    | chat inp => simp [Op.isChat] at hop
    | textIntake mode sel time pressed code =>
        cases pressed with
        | false => rfl
        | true =>
            cases ho : oracle (selectModel false) (textSeed mode code) with
            | none => rw [step_textIntake_fail oracle enc s mode sel time code ho]
            | some r =>
                rw [step_textIntake_ok oracle enc s mode sel time code r ho]
                exact getq_append_left _ _ _ h1
    | imageIntake mode sel time img pressed =>
        cases img with
        | none => rfl
        | some bytes =>
            cases pressed with
            | false => rfl
            | true =>
                cases ho : oracle (selectModel true) (imageSeed enc mode sel bytes) with
                | none => rw [step_imageIntake_fail oracle enc s mode sel time bytes ho]
                | some r =>
                    rw [step_imageIntake_ok oracle enc s mode sel time bytes r ho]
                    exact getq_append_left _ _ _ h1

theorem only_chat_mutates_messages_witness :
    (step okOracle encStub stText (Op.setActive 0)).1.history = stText.history ∧
    (step okOracle encStub stText
        (Op.textIntake Mode.diagnostic "Python" "12:00" true "y=2")).1.history.get? 0
      = stText.history.get? 0 :=
  only_chat_mutates_messages okOracle encStub stText
    (Op.textIntake Mode.diagnostic "Python" "12:00" true "y=2") 0 0
    rfl (by decide) (by decide)

/-- C10: a record created from an image submission has no system turn at
all — its messages at creation are exactly the placeholder user turn and
the assistant reply — and a later chat turn on a record without a system
turn neither sends a system turn to the inference endpoint nor introduces
one into the stored messages. -/
theorem image_record_no_system_turn (oracle : Oracle) (enc : List Nat → String)
    (s : SessionState) (mode : Mode) (sel time : String) (bytes : List Nat)
    (r : String) (i : Nat) (sess : Session) (inp : String) (c : InferenceCall)
    (hr : oracle (selectModel true) (imageSeed enc mode sel bytes) = some r)
    (hv : s.current_view = some i) (hs : s.history.get? i = some sess)
    (hns : hasSystemTurn sess.messages = false)
    (hc : c ∈ (step oracle enc s (Op.chat inp)).2) :
    ((step oracle enc s (Op.imageIntake mode sel time (some bytes) true)).1.history.getLast?).map
        (fun t => t.messages.map Message.role) = some [Role.user, Role.assistant] ∧
    hasSystemTurn c.payload = false ∧
    ((step oracle enc s (Op.chat inp)).1.history.get? i).map
        (fun t => hasSystemTurn t.messages) = some false := by
  have hlen : i < s.history.length := lt_of_getq_some _ _ _ hs
  have hg2 : s.history[i]? = some sess := by
    simpa [List.get?_eq_getElem?] using hs
  refine ⟨?_, ?_, ?_⟩
  · rw [step_imageIntake_ok oracle enc s mode sel time bytes r hr,
        getLastq_append_singleton]
    rfl
  · by_cases he : inp = ""
    · simp [step, he] at hc
    · cases ho : oracle (selectModel sess.image_data.isSome)
          (sess.messages ++ [HumanMessage (Content.text inp)]) with
      | none =>
          simp [step, get_ai_response, he, hv, hg2, ho] at hc
          subst hc
          simp [hasSystemTurn_append, hns, hasSystemTurn_user]
      | some rr =>
          simp [step, get_ai_response, he, hv, hg2, ho] at hc
          subst hc
          simp [hasSystemTurn_append, hns, hasSystemTurn_user]
  · by_cases he : inp = ""
    · simp [step, he] at hc
    · cases ho : oracle (selectModel sess.image_data.isSome)
          (sess.messages ++ [HumanMessage (Content.text inp)]) with
      | none =>
          rw [step_chat_fail oracle enc s i sess inp he hv hs ho]
          dsimp only
          rw [getq_set_self _ _ _ hlen]
          simp [Session.withMessages, hasSystemTurn_append, hns,
            hasSystemTurn_user]
      | some rr =>
          rw [step_chat_ok oracle enc s i sess inp rr he hv hs ho]
          dsimp only
          rw [getq_set_self _ _ _ hlen]
          simp [Session.withMessages, hasSystemTurn_append, hns,
            hasSystemTurn_user_assistant]

theorem image_record_no_system_turn_witness :
    ((step okOracle encStub stImg
        (Op.imageIntake Mode.diagnostic "Python" "12:00" (some [1, 2, 3]) true)).1.history.getLast?).map
        (fun t => t.messages.map Message.role) = some [Role.user, Role.assistant] ∧
    hasSystemTurn sampleChatCall.payload = false ∧
    ((step okOracle encStub stImg (Op.chat "B")).1.history.get? 0).map
        (fun t => hasSystemTurn t.messages) = some false :=
  image_record_no_system_turn okOracle encStub stImg Mode.diagnostic "Python"
    "12:00" [1, 2, 3] "OK" 0 sessImg "B" sampleChatCall rfl rfl rfl rfl
    (List.Mem.head _)

end JuniorDoctor
